import Mathlib

/-!
Verification development for `universal_data_analyzer.py`.

Raster cells are IEEE floats in the source; we embed them as an inductive
type `RVal` with a rational payload for finite values and explicit
non-finite values (`pinf`, `ninf`, `nan`), with numpy comparison
semantics (comparisons against `nan` are false, infinities compare in the
usual way).  Machine-float rounding is not modelled: all finite
arithmetic is exact rational arithmetic.
-/

attribute [local semireducible] Rat.mul Rat.inv Rat.add Rat.sub Rat.ofScientific

namespace UDA

/-- A raster cell value: a finite rational, or one of numpy's
non-finite float values. -/
inductive RVal where
  | fin (q : ℚ)
  | pinf
  | ninf
  | nan
deriving DecidableEq, Repr

/-- `np.isfinite`: true exactly on finite values. -/
def RVal.isFinite : RVal → Bool
  | .fin _ => true
  | _ => false

/-- Float equality against a finite rational constant (numpy `==`):
`nan == c` and `±inf == c` are false for finite `c`. -/
def RVal.eqQ : RVal → ℚ → Bool
  | .fin q, c => decide (q = c)
  | _, _ => false

/-- Float `>` against a finite rational constant (numpy): `nan > c` is
false, `+inf > c` is true, `-inf > c` is false. -/
def RVal.gtQ : RVal → ℚ → Bool
  | .fin q, c => decide (c < q)
  | .pinf, _ => true
  | _, _ => false

/-- Float `<` against a finite rational constant (numpy): `nan < c` is
false, `+inf < c` is false, `-inf < c` is true. -/
def RVal.ltQ : RVal → ℚ → Bool
  | .fin q, c => decide (q < c)
  | .ninf, _ => true
  | _, _ => false

/-- IEEE addition on the embedded values: `nan` propagates,
`+inf + -inf = nan`, infinities absorb finite values. -/
def RVal.add : RVal → RVal → RVal
  | .nan, _ => .nan
  | _, .nan => .nan
  | .pinf, .ninf => .nan
  | .ninf, .pinf => .nan
  | .pinf, _ => .pinf
  | _, .pinf => .pinf
  | .ninf, _ => .ninf
  | _, .ninf => .ninf
  | .fin a, .fin b => .fin (a + b)

/-- Division of a float by a positive integer count. -/
def RVal.divN : RVal → ℕ → RVal
  | .fin q, n => .fin (q / (n : ℚ))
  | v, _ => v

/-- Pairwise minimum with numpy `np.min` semantics (`nan` propagates). -/
def RVal.min2 : RVal → RVal → RVal
  | .nan, _ => .nan
  | _, .nan => .nan
  | .ninf, _ => .ninf
  | _, .ninf => .ninf
  | .pinf, y => y
  | x, .pinf => x
  | .fin a, .fin b => .fin (min a b)

/-- Pairwise maximum with numpy `np.max` semantics (`nan` propagates). -/
def RVal.max2 : RVal → RVal → RVal
  | .nan, _ => .nan
  | _, .nan => .nan
  | .pinf, _ => .pinf
  | _, .pinf => .pinf
  | .ninf, y => y
  | x, .ninf => x
  | .fin a, .fin b => .fin (max a b)

/-- Sort order used to model numpy sorting: `-inf` first, finite values
by magnitude, `+inf`, then `nan` last (numpy sorts `nan` to the end). -/
def RVal.sortLE : RVal → RVal → Bool
  | _, .nan => true
  | .nan, _ => false
  | .ninf, _ => true
  | _, .ninf => false
  | _, .pinf => true
  | .pinf, _ => false
  | .fin a, .fin b => decide (a ≤ b)

/-- `np.min` over a list of cells (the source only calls it on nonempty
data; on `[]` we return `nan`). -/
def npMin : List RVal → RVal
  | [] => .nan
  | x :: xs => xs.foldl RVal.min2 x

/-- `np.max` over a list of cells. -/
def npMax : List RVal → RVal
  | [] => .nan
  | x :: xs => xs.foldl RVal.max2 x

/-- IEEE sum of a list of cells. -/
def npSum (l : List RVal) : RVal := l.foldl RVal.add (.fin 0)

/-- `np.mean` over a list of cells. -/
def npMean (l : List RVal) : RVal := (npSum l).divN l.length

/-- `np.median`: with a `nan` present the result is `nan`; otherwise
sort and take the middle element (even length: mean of the two middle
elements). -/
def npMedian (l : List RVal) : RVal :=
  if l.any (fun v => decide (v = RVal.nan)) then .nan
  else
    let s := l.insertionSort (fun a b => RVal.sortLE a b = true)
    let n := s.length
    if n = 0 then .nan
    else if n % 2 = 1 then s.getD (n / 2) .nan
    else ((s.getD (n / 2 - 1) .nan).add (s.getD (n / 2) .nan)).divN 2

/-- `np.percentile(xs, q)` with the default linear interpolation:
on the ascending sort `s` of `xs` (length `n`), the result is
`s[i] + (pos - i) * (s[i+1] - s[i])` where `pos = q/100 * (n-1)` and
`i = floor pos`. -/
def percentile (xs : List ℚ) (q : ℚ) : ℚ :=
  let s := xs.insertionSort (· ≤ ·)
  let n := s.length
  let pos := q / 100 * ((n : ℚ) - 1)
  let i := (Int.floor pos).toNat
  let lo := s.getD i 0
  let hi := s.getD (i + 1) lo
  lo + (pos - (i : ℚ)) * (hi - lo)

/-- The minimum of a list of rationals (`.min()` on a nonempty array). -/
def listMin : List ℚ → Option ℚ
  | [] => none
  | x :: xs => some (xs.foldl min x)

/-- The maximum of a list of rationals. -/
def listMax : List ℚ → Option ℚ
  | [] => none
  | x :: xs => some (xs.foldl max x)

/-- Projection of a cell to its finite payload. -/
def finQ : RVal → Option ℚ
  | .fin q => some q
  | _ => none

/-- `data.flatten()[np.isfinite(...)]`: the finite values of a
flattened grid (source lines 122-123). -/
def finiteVals (g : List RVal) : List ℚ := g.filterMap finQ

/-- The branch of `_read_tif_file` that runs when no sentinel is
declared (source lines 120-131): over the finite values, if the minimum
is below `q1 - 100*(q99 - q1)` return the derived threshold
`q1 - 10*(q99 - q1)`, else no sentinel. -/
def detectFromFinite : List ℚ → Option ℚ
  | [] => none
  | x :: xs =>
    let df := x :: xs
    let q1 := percentile df 1
    let q99 := percentile df 99
    if xs.foldl min x < q1 - 100 * (q99 - q1) then some (q1 - 10 * (q99 - q1))
    else none

/-- The no-data detector of `_read_tif_file` (source lines 117-131):
a declared sentinel is returned unchanged; otherwise the heuristic
`detectFromFinite` runs on the finite values of the flattened grid. -/
def detectNodata (g : List RVal) (declared : Option ℚ) : Option ℚ :=
  match declared with
  | some v => some v
  | none => detectFromFinite (finiteVals g)

/-- Raster metadata as returned by `_read_tif_file` (source lines
133-144); `bounds` is irrelevant to the analysed claims and omitted. -/
structure RasterMeta where
  width : ℕ
  height : ℕ
  bands : ℕ
  crs : String
  nodata : Option ℚ
  dtype : String
deriving DecidableEq, Repr

/-- The record `_read_tif_file` returns: first-band grid plus metadata. -/
structure RasterData where
  data : List (List RVal)
  metadata : RasterMeta
deriving DecidableEq, Repr

/-- `_read_tif_file` (source lines 111-144): reads the grid, resolves
the effective sentinel (declared sentinel, else heuristic detection on
the flattened grid) and packs the metadata. -/
def readTif (grid : List (List RVal)) (srcNodata : Option ℚ)
    (width height bands : ℕ) (crs dtype : String) : RasterData :=
  { data := grid,
    metadata :=
      { width := width, height := height, bands := bands, crs := crs,
        nodata := detectNodata grid.flatten srcNodata, dtype := dtype } }

/-- `valid_data` of `_analyze_tif_data` (source line 219):
`raster_data[raster_data != nodata]` when a sentinel is present, the
whole grid otherwise.  Note the filter is an equality test against the
sentinel, not a threshold comparison. -/
def analyzerValidData (rd : RasterData) : List RVal :=
  match rd.metadata.nodata with
  | some nd => rd.data.flatten.filter (fun v => !(v.eqQ nd))
  | none => rd.data.flatten

/-- The `summary` block of `_analyze_tif_data` (source lines 221-228). -/
structure RasterSummary where
  dimensions : String
  bands : ℕ
  crs : String
  data_type : String
  valid_pixels : ℕ
  total_pixels : ℕ
deriving DecidableEq, Repr

/-- The `numeric_summary` block of `_analyze_tif_data` (source lines
230-237).  The source also stores `std = np.std(valid_data)`; the
standard deviation is embedded separately as `npStd` below, because a
square root is not a rational-valued operation. -/
structure RasterNumericSummary where
  min : RVal
  max : RVal
  mean : RVal
  median : RVal
deriving DecidableEq, Repr

/-- Result of `_analyze_tif_data`. -/
structure TifAnalysis where
  summary : RasterSummary
  numeric_summary : Option RasterNumericSummary
  insights : List String
deriving DecidableEq, Repr

/-- `_analyze_tif_data` (source lines 211-251): partitions cells by
equality with the effective sentinel, reports valid/total pixel counts
and descriptive statistics over the valid cells, and emits insights. -/
def analyzeTif (rd : RasterData) : TifAnalysis :=
  let flat := rd.data.flatten
  let valid := analyzerValidData rd
  let summary : RasterSummary :=
    { dimensions := toString rd.metadata.width ++ " x " ++ toString rd.metadata.height,
      bands := rd.metadata.bands, crs := rd.metadata.crs,
      data_type := rd.metadata.dtype,
      valid_pixels := valid.length, total_pixels := flat.length }
  let numeric : Option RasterNumericSummary :=
    if valid.length > 0 then
      some { min := npMin valid, max := npMax valid,
             mean := npMean valid, median := npMedian valid }
    else none
  let insights :=
    (match rd.metadata.nodata with
     | some nd =>
       ["Spatial data with " ++ toString (flat.countP (fun v => v.eqQ nd)) ++ " no-data pixels"]
     | none => ["Spatial raster data"]) ++
    (if valid.length > 0 then ["Data range reported"] else [])
  { summary := summary, numeric_summary := numeric, insights := insights }

/-!  Visualization generation for rasters (`_create_tif_visualizations`,
source lines 264-415).  The plotly figure objects are embedded as an
inductive `Fig` carrying the data the source feeds into each chart. -/

/-- The chart payloads handed to plotly by `_create_tif_visualizations`. -/
inductive Fig where
  | heatmapF (z : List (List RVal))
  | statsF (validData : List RVal)
  | histF (x : List RVal) (nbins : ℕ)
deriving DecidableEq, Repr

/-- A visualization entry: the dicts appended to `viz` in the source
(`type`, `title`, `plotly_fig`). -/
structure Viz where
  vtype : String
  title : String
  fig : Fig
deriving DecidableEq, Repr

/-- `clean_data`'s validity mask for the heatmap (source lines 275-286):
with a sentinel, `!= nodata` plus the safety range `(-1e10, 1e10)`;
without one, the safety range plus `np.isfinite`. -/
def tifCleanMask (nodata : Option ℚ) (v : RVal) : Bool :=
  match nodata with
  | some nd => !(v.eqQ nd) && v.gtQ (-(10 ^ 10)) && v.ltQ (10 ^ 10)
  | none => v.gtQ (-(10 ^ 10)) && v.ltQ (10 ^ 10) && v.isFinite

/-- `valid_mask` for the statistics chart (source lines 335-340): with a
sentinel, `!= nodata` plus the safety range plus `np.isfinite`; without
one, the safety range plus `np.isfinite`. -/
def tifStatsMask (nodata : Option ℚ) (v : RVal) : Bool :=
  match nodata with
  | some nd => !(v.eqQ nd) && v.gtQ (-(10 ^ 10)) && v.ltQ (10 ^ 10) && v.isFinite
  | none => v.gtQ (-(10 ^ 10)) && v.ltQ (10 ^ 10) && v.isFinite

/-- The doubly-filtered `valid_data` used by the statistics chart and
the histogram (source lines 335-340). -/
def tifValidData (rd : RasterData) : List RVal :=
  rd.data.flatten.filter (tifStatsMask rd.metadata.nodata)

/-- Python slicing `l[::n]`: every `n`-th element starting at index 0. -/
def everyNth (n : ℕ) (l : List α) : List α :=
  (List.range l.length).filterMap (fun i => if i % n = 0 then l[i]? else none)

/-- `hist_data` of the distribution histogram (source lines 384-389):
when more than 100000 valid cells exist, index the valid data by
`np.random.choice(len(valid_data), 100000, replace=False)`, modelled by
the sampler `choice`; otherwise use all valid cells. -/
def tifHistData (choice : ℕ → ℕ → List ℕ) (vd : List RVal) : List RVal :=
  if vd.length > 100000 then (choice vd.length 100000).map (fun i => vd.getD i .nan)
  else vd

/-- `_create_tif_visualizations` (source lines 264-415): heatmap over
the 4x-decimated cleaned grid (emitted only when the decimated sample
has a finite cell), statistics bar chart and 50-bin histogram over the
doubly-filtered valid cells (each emitted only when valid cells exist).
`choice n k` stands for `np.random.choice(n, k, replace=False)`. -/
def createTifVisualizations (choice : ℕ → ℕ → List ℕ) (rd : RasterData) : List Viz :=
  let flat := rd.data.flatten
  let clean_data :=
    rd.data.map (List.map (fun v => if tifCleanMask rd.metadata.nodata v then v else RVal.nan))
  let sample_data := everyNth 4 (clean_data.map (everyNth 4))
  let valid_sample := sample_data.flatten.filter RVal.isFinite
  let heat :=
    if valid_sample.length > 0 then
      [Viz.mk "heatmap" "Spatial Vulnerability Heatmap" (Fig.heatmapF sample_data)]
    else []
  let valid_data := flat.filter (tifStatsMask rd.metadata.nodata)
  let stats :=
    if valid_data.length > 0 then
      [Viz.mk "statistics" "Vulnerability Data Statistics" (Fig.statsF valid_data)]
    else []
  let hist :=
    if valid_data.length > 0 then
      [Viz.mk "histogram" "Vulnerability Score Distribution"
        (Fig.histF (tifHistData choice valid_data) 50)]
    else []
  heat ++ stats ++ hist

/-!  Tabular analysis (`_analyze_tabular_data`, source lines 169-209).
A pandas `DataFrame` is embedded as an ordered list of named, kinded
columns; missing values (`NaN`/`None`) are the explicit cell `null`. -/

/-- A cell of a tabular dataset. -/
inductive CellVal where
  | num (q : ℚ)
  | str (s : String)
  | null
deriving DecidableEq, Repr

/-- A pandas column dtype, as far as the source dispatches on it:
`select_dtypes(include=[np.number])` vs `include=['object','category']`. -/
inductive ColKind where
  | numeric
  | object
deriving DecidableEq, Repr

/-- One named, kinded column. -/
structure DFColumn where
  name : String
  kind : ColKind
  cells : List CellVal
deriving DecidableEq, Repr

/-- A rectangular table (all columns have the same number of cells). -/
structure DataFrame where
  cols : List DFColumn
deriving DecidableEq, Repr

/-- The row count of a table (`data.shape[0]`). -/
def nRows (df : DataFrame) : ℕ :=
  (df.cols.head?.map (fun c => c.cells.length)).getD 0

/-- Row `i` as its whole value tuple across all columns. -/
def dfRow (df : DataFrame) (i : ℕ) : List CellVal :=
  df.cols.map (fun c => c.cells.getD i .null)

/-- `data.duplicated().sum()` (source line 180): the number of rows
whose whole value tuple equals an earlier row's. -/
def duplicatedCount (df : DataFrame) : ℕ :=
  ((List.range (nRows df)).filter
    (fun i => (List.range i).any (fun j => decide (dfRow df j = dfRow df i)))).length

/-- The non-null numeric payloads of a column (pandas descriptive
statistics skip `NaN`). -/
def numericCells (c : DFColumn) : List ℚ :=
  c.cells.filterMap (fun v => match v with | .num q => some q | _ => none)

/-- The arithmetic mean of a list of rationals. -/
def listMean (l : List ℚ) : ℚ := l.sum / (l.length : ℚ)

/-- The sum of squared deviations from the mean. -/
def squaredDevSum (l : List ℚ) : ℚ :=
  (l.map (fun x => (x - listMean l) ^ 2)).sum

/-- The variance with divisor `n - 1`, as used by pandas
`DataFrame.describe()`/`std` (default `ddof=1`, source line 194). -/
def sampleVariance (l : List ℚ) : ℚ := squaredDevSum l / ((l.length : ℚ) - 1)

/-- The variance with divisor `n`, as used by `np.std` (default
`ddof=0`, source lines 236 and 348). -/
def popVariance (l : List ℚ) : ℚ := squaredDevSum l / (l.length : ℚ)

/-- The `std` entry pandas `describe()` reports for a numeric column
(source line 194): the square root of the `n - 1` variance. -/
noncomputable def pandasStd (l : List ℚ) : ℝ := Real.sqrt ((sampleVariance l : ℚ) : ℝ)

/-- The `std` entry `_analyze_tif_data` and the raster statistics chart
report via `np.std` (source lines 236 and 348): the square root of the
`n` variance. -/
noncomputable def npStd (l : List ℚ) : ℝ := Real.sqrt ((popVariance l : ℚ) : ℝ)

/-- One numeric column's `describe()` row (source line 194): count,
mean, min, quartiles, max.  `std` is embedded separately as
`pandasStd`, since a square root is not rational-valued. -/
structure ColDescribe where
  count : ℕ
  mean : ℚ
  min : ℚ
  q25 : ℚ
  q50 : ℚ
  q75 : ℚ
  max : ℚ
deriving DecidableEq, Repr

/-- `describe()` for one numeric column; pandas quantiles use the same
linear interpolation as `np.percentile`. -/
def describeCol (vals : List ℚ) : ColDescribe :=
  { count := vals.length, mean := listMean vals,
    min := (listMin vals).getD 0,
    q25 := percentile vals 25, q50 := percentile vals 50, q75 := percentile vals 75,
    max := (listMax vals).getD 0 }

/-- The distinct non-null values of a column in first-encountered
order. -/
def firstDistinct (l : List CellVal) : List CellVal :=
  l.foldl (fun acc v => if v ∈ acc then acc else acc ++ [v]) []

/-- `value_counts()` (source line 204): each distinct non-null value
with its occurrence count, most frequent first, ties kept in
first-encountered order (stable sort by descending count). -/
def valueCounts (cells : List CellVal) : List (CellVal × ℕ) :=
  let nonNull := cells.filter (fun v => !(decide (v = CellVal.null)))
  let tallies := (firstDistinct nonNull).map
    (fun v => (v, nonNull.countP (fun w => decide (w = v))))
  tallies.insertionSort (fun a b => b.2 ≤ a.2)

/-- One categorical column's summary (source lines 202-205): distinct
value count (`nunique`, nulls dropped) and the top 5 most frequent
values with counts. -/
structure CatSummary where
  unique_values : ℕ
  top_values : List (CellVal × ℕ)
deriving DecidableEq, Repr

/-- Result of `_analyze_tabular_data` (source lines 169-209); the
`numeric_summary`/`categorical_summary` keys exist in the source only
when the respective column set is nonempty, embedded here as the lists
being empty.  `memory_usage` is a platform quantity and not modelled. -/
structure TabAnalysis where
  shape : ℕ × ℕ
  columns : List String
  dtypes : List (String × ColKind)
  missing_values : List (String × ℕ)
  duplicates : ℕ
  numeric_summary : List (String × ColDescribe)
  categorical_summary : List (String × CatSummary)
  insights : List String
deriving DecidableEq, Repr

/-- `_analyze_tabular_data` (source lines 169-209). -/
def analyzeTabular (df : DataFrame) : TabAnalysis :=
  let missing := df.cols.map (fun c => (c.name, c.cells.countP (fun v => decide (v = CellVal.null))))
  let totalMissing := (missing.map Prod.snd).sum
  let dups := duplicatedCount df
  let numericCols := df.cols.filter (fun c => decide (c.kind = ColKind.numeric))
  let categoricalCols := df.cols.filter (fun c => decide (c.kind = ColKind.object))
  let insights :=
    (if totalMissing > 0 then ["Found " ++ toString totalMissing ++ " missing values"] else []) ++
    (if dups > 0 then ["Found " ++ toString dups ++ " duplicate rows"] else []) ++
    (if numericCols.length > 0 then
      ["Found " ++ toString numericCols.length ++ " numeric columns for analysis"] else []) ++
    (if categoricalCols.length > 0 then
      ["Found " ++ toString categoricalCols.length ++ " categorical columns"] else [])
  { shape := (nRows df, df.cols.length),
    columns := df.cols.map (fun c => c.name),
    dtypes := df.cols.map (fun c => (c.name, c.kind)),
    missing_values := missing,
    duplicates := dups,
    numeric_summary := numericCols.map (fun c => (c.name, describeCol (numericCells c))),
    categorical_summary := categoricalCols.map (fun c =>
      (c.name,
       { unique_values := (firstDistinct (c.cells.filter (fun v => !(decide (v = CellVal.null))))).length,
         top_values := (valueCounts c.cells).take 5 })),
    insights := insights }

/-!  Report assembly (`generate_dashboard`, source lines 475-788).
`pio.to_html` on an opaque plotly figure is modelled by a function
parameter `toHtml : Fig → String`; the static CSS/markup of the
template is abbreviated to short constant strings, keeping the
dynamically computed pieces (navigation links, per-file sections,
summary tiles, aggregate statistics) faithful to the source. -/

/-- A leaf value of a summary mapping, with the display dispatch of
`_create_summary_html` (source lines 798-809): `int` with thousands
separators, `float` with 4 decimal places, everything else `str`. -/
inductive SLeaf where
  | intv (z : ℤ)
  | ratv (q : ℚ)
  | strv (s : String)
deriving DecidableEq, Repr

/-- A summary value: a leaf, or one nested mapping level. -/
inductive SVal where
  | leaf (v : SLeaf)
  | nested (kvs : List (String × SLeaf))
deriving DecidableEq, Repr

/-- Thousands-separator rendering of a natural number (`f"{v:,}"`). -/
def groupDigitsNat (n : ℕ) : String :=
  let ds := (toString n).toList.reverse
  String.mk ((ds.enum.foldl
    (fun acc p => if p.1 ≠ 0 ∧ p.1 % 3 = 0 then p.2 :: ',' :: acc else p.2 :: acc) []))

/-- Thousands-separator rendering of an integer. -/
def groupDigitsInt (z : ℤ) : String :=
  (if z < 0 then "-" else "") ++ groupDigitsNat z.natAbs

/-- Fixed-point rendering of a rational with `d` decimal places,
rounding to nearest (`f"{v:.4f}"`-style). -/
def fmtFixed (d : ℕ) (q : ℚ) : String :=
  let r : ℤ := Int.fdiv ((q * (10 ^ d : ℕ)).num * 2 + (q * (10 ^ d : ℕ)).den) ((q * (10 ^ d : ℕ)).den * 2)
  let a := r.natAbs
  let ip := a / 10 ^ d
  let fp := a % 10 ^ d
  let fps := toString fp
  (if r < 0 then "-" else "") ++ toString ip ++ "." ++
    String.mk (List.replicate (d - fps.length) '0') ++ fps

/-- The displayed text of one summary leaf (source lines 798-809). -/
def displayLeaf : SLeaf → String
  | .intv z => groupDigitsInt z
  | .ratv q => fmtFixed 4 q
  | .strv s => s

/-- `key.replace("_", " ").title()`. -/
def titleize (k : String) : String :=
  String.intercalate " " (((k.replace "_" " ").splitOn " ").map String.capitalize)

/-- One summary tile. -/
def summaryTile (k : String) (v : SLeaf) : String :=
  "<div class=\"summary-item\"><h4>" ++ titleize k ++ "</h4><div class=\"value\">" ++
    displayLeaf v ++ "</div></div>"

/-- An analysis record as held in `self.analysis_results`. -/
structure Analysis where
  file_name : String
  file_type : String
  summary : List (String × SVal)
  visualizations : List Viz
  insights : List String
deriving Repr

/-- A discovered file's entry in `self.data_files` (source lines
77-82); `path`/`modified` are external and omitted. -/
structure FileInfo where
  ftype : String
  size : ℕ
deriving DecidableEq, Repr

/-- The analyzer state that `generate_dashboard` reads: the discovered
files and the accumulated analysis records, both in insertion order. -/
structure AnalyzerState where
  data_files : List (String × FileInfo)
  analysis_results : List (String × Analysis)
deriving Repr

/-- `_create_summary_html` (source lines 790-816): a tile per summary
entry, flattening one nested mapping level into one tile per leaf. -/
def summaryHtml (a : Analysis) : String :=
  "<h3>File Summary</h3><div class=\"summary-grid\">" ++
    String.join ((a.summary.map (fun kv =>
      match kv.2 with
      | .leaf v => [summaryTile kv.1 v]
      | .nested kvs => kvs.map (fun skv => summaryTile skv.1 skv.2))).flatten) ++
    "</div>"

/-- `all_viz_html` (source lines 480-490): one `(file_name, title,
html)` entry per visualization of every record, in record order. -/
def allVizHtml (toHtml : Fig → String) (s : AnalyzerState) : List (String × String × String) :=
  (s.analysis_results.map (fun p =>
    p.2.visualizations.map (fun v => (p.1, v.title, toHtml v.fig)))).flatten

/-- `nav_links` (source lines 493-495). -/
def navLinks (s : AnalyzerState) : String :=
  String.join (s.analysis_results.map (fun p =>
    "<a href=\"#" ++ p.1.replace "." "_" ++ "\">" ++ p.1 ++ "</a>"))

/-- `dashboard_sections` (source lines 498-526): one section per
record with its summary grid and its charts in generation order, or a
placeholder when the record has no visualizations. -/
def dashboardSections (toHtml : Fig → String) (s : AnalyzerState) : String :=
  String.join (s.analysis_results.map (fun p =>
    let vh :=
      if p.2.visualizations.length > 0 then
        String.join (p.2.visualizations.map (fun v =>
          "<div class=\"chart\"><h3>" ++ v.title ++ "</h3><div class=\"chart-container\">" ++
            toHtml v.fig ++ "</div></div>"))
      else "<div class=\"no-viz\"><p>No visualizations available for this file type.</p></div>"
    "<section id=\"" ++ p.1.replace "." "_" ++ "\" class=\"section\"><h2>" ++ p.1 ++
      "</h2><div class=\"file-summary\">" ++ summaryHtml p.2 ++ "</div>" ++ vh ++ "</section>"))

/-- `len(self.data_files)`: the "Files Analyzed" aggregate (source
line 738). -/
def filesAnalyzed (s : AnalyzerState) : ℕ := s.data_files.length

/-- `len(set(f['type'] for f in self.data_files.values()))`: the "File
Types" aggregate (source line 742). -/
def fileTypeCount (s : AnalyzerState) : ℕ :=
  (s.data_files.map (fun p => p.2.ftype)).dedup.length

/-- `sum(f['size'] for f in self.data_files.values())`: the byte total
behind the "Total Size" aggregate (source line 746). -/
def totalSizeBytes (s : AnalyzerState) : ℕ :=
  (s.data_files.map (fun p => p.2.size)).sum

/-- The aggregate-statistics block (source lines 735-752). -/
def overviewStats (toHtml : Fig → String) (s : AnalyzerState) : String :=
  "<div class=\"stat\"><h3>Files Analyzed</h3><div class=\"value\">" ++
    toString (filesAnalyzed s) ++ "</div></div>" ++
  "<div class=\"stat\"><h3>File Types</h3><div class=\"value\">" ++
    toString (fileTypeCount s) ++ "</div></div>" ++
  "<div class=\"stat\"><h3>Total Size</h3><div class=\"value\">" ++
    fmtFixed 1 ((totalSizeBytes s : ℚ) / 1024 / 1024) ++ " MB</div></div>" ++
  "<div class=\"stat\"><h3>Visualizations</h3><div class=\"value\">" ++
    toString (allVizHtml toHtml s).length ++ "</div></div>"

/-- `generate_dashboard` (source lines 475-788): assembles the single
HTML document from the analyzer state and returns it together with the
(unmodified) state; the write to the output file is an external
boundary.  The static template text is abbreviated. -/
def generateDashboard (toHtml : Fig → String) (s : AnalyzerState) : String × AnalyzerState :=
  ("<html><head><title>Universal Data Analyzer Dashboard</title></head><body><nav>" ++
     navLinks s ++ "</nav><div class=\"overview\"><div class=\"stats-grid\">" ++
     overviewStats toHtml s ++ "</div></div>" ++
     dashboardSections toHtml s ++ "<footer>Built with Universal Data Analyzer</footer></body></html>",
   s)

/-!  Concrete instances used by the theorems below. -/

/-- A 1 x 101 grid with the 100 values `0, 1, ..., 99` (uniformly
spread within `[0, 100]`) and exactly one injected value `-1e9`. -/
def gridC1 : List (List RVal) :=
  [(List.range 100).map (fun k => RVal.fin k) ++ [RVal.fin (-(10 ^ 9))]]

/-- The raster read from `gridC1` with no declared sentinel. -/
def rdC1 : RasterData := readTif gridC1 none 101 1 1 "EPSG:4326" "float64"

/-- The 4 x 4 grid of the end-to-end raster scenario. -/
def gridC2 : List (List RVal) :=
  [[.fin 1, .fin 2, .fin 3, .fin 4],
   [.fin 5, .fin 6, .fin 7, .fin (-9999)],
   [.fin 9, .fin 10, .fin 11, .fin 12],
   [.fin 13, .fin 14, .fin 15, .fin 16]]

/-- The raster read from `gridC2` with declared sentinel `-9999`. -/
def rdC2 : RasterData := readTif gridC2 (some (-9999)) 4 4 1 "EPSG:4326" "float64"

/-- The 3-row, 2-column table of the end-to-end tabular scenario. -/
def dfC6 : DataFrame :=
  ⟨[⟨"age", .numeric, [.num 25, .num 30, .num 25]⟩,
    ⟨"city", .object, [.str "A", .str "B", .str "A"]⟩]⟩

/-- An analyzer state with one discovered file that produced no
analysis record (its decode failed): `self.data_files` has one entry,
`self.analysis_results` none. -/
def stateC4 : AnalyzerState := ⟨[("a.csv", ⟨"csv", 7⟩)], []⟩

/-- An analyzer state in which the one discovered file did produce a
record. -/
def stateC4w : AnalyzerState :=
  ⟨[("a.csv", ⟨"csv", 7⟩)], [("a.csv", ⟨"a.csv", "csv", [], [], []⟩)]⟩

/-- A grid with two finite values and one `nan`. -/
def gC3w : List RVal := [.fin 5, .nan, .fin 7]

/-- A grid holding only non-finite values. -/
def gC8nf : List RVal := [.nan, .pinf, .ninf]

/-- A 1 x 1 raster whose only cell equals its declared sentinel, so no
valid cells remain. -/
def rdC9 : RasterData := readTif [[.fin 3]] (some 3) 1 1 1 "EPSG:4326" "float64"

/-- A sampler satisfying the `np.random.choice(n, k, replace=False)`
contract: `k` distinct indices below `n` (here the first `k`). -/
def choiceRange : ℕ → ℕ → List ℕ := fun _ k => List.range k

/-- A valid-cell set of exactly 150000 cells. -/
def vdC7 : List RVal := List.replicate 150000 (RVal.fin 0)

/-- A two-element value list with nonzero variance. -/
def lC10 : List ℚ := [0, 1]

/-!  Helper lemmas. -/

/-- On a nonempty list all of whose elements equal `v`, any percentile
with `q ≤ 100` is `v`. -/
lemma percentile_of_all_eq {l : List ℚ} {v : ℚ} (hne : l ≠ [])
    (hall : ∀ x ∈ l, x = v) {q : ℚ} (hq : q ≤ 100) : percentile l q = v := by
  have hperm := List.perm_insertionSort (α := ℚ) (· ≤ ·) l
  set s := l.insertionSort (· ≤ ·) with hs
  have hlen : s.length = l.length := hperm.length_eq
  have hmem : ∀ x ∈ s, x = v := fun x hx => hall x (hperm.mem_iff.1 hx)
  have hn : 1 ≤ l.length := List.length_pos.2 hne
  set pos : ℚ := q / 100 * ((s.length : ℚ) - 1) with hpos
  have hposle : pos ≤ (s.length : ℚ) - 1 := by
    have h1 : q / 100 ≤ 1 := (div_le_one (by norm_num)).2 hq
    have h0 : (0 : ℚ) ≤ (s.length : ℚ) - 1 := by
      rw [hlen]
      have : (1 : ℚ) ≤ (l.length : ℚ) := by exact_mod_cast hn
      linarith
    calc pos ≤ 1 * ((s.length : ℚ) - 1) := mul_le_mul_of_nonneg_right h1 h0
    _ = (s.length : ℚ) - 1 := one_mul _
  have hfl : Int.floor pos ≤ (s.length : ℤ) - 1 := by
    have := Int.floor_le_floor hposle
    rwa [show ((s.length : ℚ) - 1) = (((s.length : ℤ) - 1 : ℤ) : ℚ) by push_cast; ring,
      Int.floor_intCast] at this
  have hi : (Int.floor pos).toNat < s.length := by
    have h1 : 1 ≤ s.length := hlen ▸ hn
    omega
  have hlo : s.getD (Int.floor pos).toNat 0 = v := by
    rw [List.getD_eq_getElem _ _ hi]
    exact hmem _ (List.getElem_mem _)
  have hhi : s.getD ((Int.floor pos).toNat + 1) v = v := by
    by_cases h2 : (Int.floor pos).toNat + 1 < s.length
    · rw [List.getD_eq_getElem _ _ h2]
      exact hmem _ (List.getElem_mem _)
    · exact List.getD_eq_default _ _ (by omega)
  show s.getD (Int.floor pos).toNat 0 +
      (pos - ((Int.floor pos).toNat : ℚ)) *
        (s.getD ((Int.floor pos).toNat + 1) (s.getD (Int.floor pos).toNat 0) -
          s.getD (Int.floor pos).toNat 0) = v
  rw [hlo, hhi]
  ring

/-- Folding `min` over a list of copies of `v` starting from `v`
yields `v`. -/
lemma foldl_min_of_all_eq {v : ℚ} {xs : List ℚ} (hall : ∀ x ∈ xs, x = v) :
    xs.foldl min v = v := by
  induction xs with
  | nil => rfl
  | cons y ys ih =>
    have hy : y = v := hall y (List.mem_cons_self _ _)
    have hys : ∀ x ∈ ys, x = v := fun x hx => hall x (List.mem_cons_of_mem _ hx)
    rw [List.foldl_cons, hy, min_self]
    exact ih hys

/-- The finite values of a constant finite grid. -/
lemma finiteVals_replicate (n : ℕ) (v : ℚ) :
    finiteVals (List.replicate n (RVal.fin v)) = List.replicate n v := by
  induction n with
  | zero => rfl
  | succ m ih => simp [finiteVals, List.replicate_succ, finQ] at ih ⊢

/-- Members of `everyNth n l` are members of `l`. -/
lemma mem_of_mem_everyNth {l : List α} {x : α} {n : ℕ} (h : x ∈ everyNth n l) :
    x ∈ l := by
  unfold everyNth at h
  rcases List.mem_filterMap.1 h with ⟨i, _, hsome⟩
  by_cases hc : i % n = 0
  · rw [if_pos hc] at hsome
    exact List.getElem?_mem hsome
  · rw [if_neg hc] at hsome
    cases hsome

/-- A cell passing the heatmap mask also passes the statistics mask. -/
lemma statsMask_of_cleanMask {nd : Option ℚ} {v : RVal}
    (h : tifCleanMask nd v = true) : tifStatsMask nd v = true := by
  cases nd <;> cases v <;>
    simp_all [tifCleanMask, tifStatsMask, RVal.gtQ, RVal.ltQ, RVal.isFinite, RVal.eqQ]

/-!  Theorems. -/

/-- C5: rendering is pure — `generate_dashboard` computes the document
from the analyzer state without mutating it, so rendering the state it
leaves behind yields byte-identical output and the state (the records
and their visualization lists) is unchanged. -/
theorem C5_render_pure_idempotent :
    ∀ (toHtml : Fig → String) (s : AnalyzerState),
      (generateDashboard toHtml (generateDashboard toHtml s).2).1 =
        (generateDashboard toHtml s).1 ∧
      (generateDashboard toHtml s).2 = s := by
  intro toHtml s
  exact ⟨rfl, rfl⟩

/-- C4 counterexample: for a state with one discovered file whose
decode produced no analysis record, the dashboard's file count (taken
from `self.data_files`, source line 738) is 1 while the number of
records is 0, so "file count = number of records" fails. -/
theorem C4_counterexample_decode_failure :
    filesAnalyzed stateC4 = 1 ∧ stateC4.analysis_results.length = 0 ∧
      filesAnalyzed stateC4 ≠ stateC4.analysis_results.length := by
  refine ⟨rfl, rfl, ?_⟩
  decide

/-- C4 (amended): the aggregate file count, type count and total size
are computed over the discovered files (`self.data_files`), and the
visualization count is the sum of the records' visualization-list
lengths; when every discovered file yields exactly one record (same
keys in the same order) the file count equals the number of records. -/
theorem C4_aggregates :
    ∀ (toHtml : Fig → String) (s : AnalyzerState),
      s.data_files.map Prod.fst = s.analysis_results.map Prod.fst →
      filesAnalyzed s = s.analysis_results.length ∧
      fileTypeCount s = (s.data_files.map (fun p => p.2.ftype)).dedup.length ∧
      totalSizeBytes s = (s.data_files.map (fun p => p.2.size)).sum ∧
      (allVizHtml toHtml s).length =
        (s.analysis_results.map (fun p => p.2.visualizations.length)).sum := by
  intro toHtml s h
  refine ⟨?_, rfl, rfl, ?_⟩
  · have := congrArg List.length h
    simpa [filesAnalyzed] using this
  · simp [allVizHtml, List.length_flatten, List.map_map, Function.comp_def, List.length_map]

/-- C4 witness: the amended statement at a concrete state in which the
one discovered file has a record. -/
theorem C4_aggregates_witness :
    stateC4w.data_files.map Prod.fst = stateC4w.analysis_results.map Prod.fst ∧
      (filesAnalyzed stateC4w = stateC4w.analysis_results.length ∧
       fileTypeCount stateC4w =
         (stateC4w.data_files.map (fun p => p.2.ftype)).dedup.length ∧
       totalSizeBytes stateC4w = (stateC4w.data_files.map (fun p => p.2.size)).sum ∧
       (allVizHtml (fun _ => "") stateC4w).length =
         (stateC4w.analysis_results.map (fun p => p.2.visualizations.length)).sum) :=
  ⟨rfl, C4_aggregates (fun _ => "") stateC4w rfl⟩

set_option maxRecDepth 200000 in
/-- C2: the reported valid pixel count is the number of grid cells not
equal to the effective sentinel (the whole cell count when there is no
sentinel); on the 4 x 4 scenario grid with declared sentinel `-9999`
the summary reports 15 valid of 16 total pixels, min 1 and max 16. -/
theorem C2_valid_pixel_count :
    (∀ rd : RasterData,
      (analyzeTif rd).summary.valid_pixels =
        rd.metadata.nodata.elim rd.data.flatten.length
          (fun nd => rd.data.flatten.countP (fun v => !(v.eqQ nd))) ∧
      (analyzeTif rd).summary.total_pixels = rd.data.flatten.length) ∧
    ((analyzeTif rdC2).summary.valid_pixels = 15 ∧
     (analyzeTif rdC2).summary.total_pixels = 16 ∧
     (analyzeTif rdC2).numeric_summary.map (fun n => (n.min, n.max)) =
       some (.fin 1, .fin 16)) := by
  constructor
  · intro rd
    constructor
    · cases h : rd.metadata.nodata with
      | none => simp [analyzeTif, analyzerValidData, h]
      | some nd => simp [analyzeTif, analyzerValidData, h, List.countP_eq_length_filter]
    · cases h : rd.metadata.nodata <;> rfl
  · refine ⟨?_, ?_, ?_⟩ <;> decide

set_option maxRecDepth 1000000 in
/-- C1 (code bug): on a grid of 100 values uniformly spread in
`[0, 100]` plus one injected `-1e9` and no declared sentinel, the
detector does return the derived threshold `-980`, strictly between
`-1e9` and `0`; but because both `_analyze_tif_data` and the
visualization filter compare cells with `!=`/equality against that
derived threshold rather than `<=`, the injected `-1e9` cell is NOT
excluded: all 101 cells count as valid (the claim expects 100), and
the injected cell also passes the visualization filter. -/
theorem C1_threshold_not_enforced :
    detectNodata gridC1.flatten none = some (-980) ∧
    (-(10 ^ 9) : ℚ) < -980 ∧ (-980 : ℚ) < 0 ∧
    RVal.fin (-(10 ^ 9)) ∈ analyzerValidData rdC1 ∧
    (analyzeTif rdC1).summary.valid_pixels = 101 ∧
    (analyzeTif rdC1).summary.valid_pixels ≠ 100 ∧
    RVal.fin (-(10 ^ 9)) ∈ tifValidData rdC1 := by
  refine ⟨?_, by norm_num, by norm_num, ?_, ?_, ?_, ?_⟩ <;> decide

set_option maxRecDepth 200000 in
/-- C6: the end-to-end tabular scenario — 3 rows, 1 duplicate row, one
numeric column `age` whose mean `80/3` rounds to `26.667`, and one
categorical column `city` with 2 distinct values and top values
`A:2, B:1`. -/
theorem C6_tabular_scenario :
    (analyzeTabular dfC6).shape.1 = 3 ∧
    (analyzeTabular dfC6).duplicates = 1 ∧
    (analyzeTabular dfC6).numeric_summary =
      [("age", ⟨3, 80 / 3, 25, 25, 25, 55 / 2, 30⟩)] ∧
    ((analyzeTabular dfC6).numeric_summary.all
      (fun d => decide (|1000 * d.2.mean - 26667| ≤ 1 / 2)) = true) ∧
    (analyzeTabular dfC6).categorical_summary =
      [("city", ⟨2, [(.str "A", 2), (.str "B", 1)]⟩)] := by
  refine ⟨?_, ?_, ?_, ?_, ?_⟩ <;> decide

/-- C3: the detector returns a declared sentinel unchanged; with no
declared sentinel it returns nothing on a grid with no finite value,
and otherwise returns `q1 - 10*(q99 - q1)` exactly when the minimum
finite value is below `q1 - 100*(q99 - q1)` (percentiles over the
finite values), and nothing otherwise. -/
theorem C3_detector_spec :
    (∀ (g : List RVal) (v : ℚ), detectNodata g (some v) = some v) ∧
    (∀ g : List RVal, finiteVals g = [] → detectNodata g none = none) ∧
    (∀ (g : List RVal) (m : ℚ), listMin (finiteVals g) = some m →
      detectNodata g none =
        if m < percentile (finiteVals g) 1 -
            100 * (percentile (finiteVals g) 99 - percentile (finiteVals g) 1) then
          some (percentile (finiteVals g) 1 -
            10 * (percentile (finiteVals g) 99 - percentile (finiteVals g) 1))
        else none) := by
  refine ⟨fun g v => rfl, ?_, ?_⟩
  · intro g h
    simp [detectNodata, h, detectFromFinite]
  · intro g m hm
    show detectFromFinite (finiteVals g) = _
    rcases hfin : finiteVals g with _ | ⟨x, xs⟩
    · rw [hfin] at hm
      simp [listMin] at hm
    · rw [hfin] at hm
      simp only [listMin, Option.some.injEq] at hm
      subst hm
      simp [detectFromFinite]

/-- C3 witness: the detector formula instantiated on the grid
`[5, nan, 7]`, whose minimum finite value is 5. -/
theorem C3_detector_spec_witness :
    listMin (finiteVals gC3w) = some 5 ∧
      detectNodata gC3w none =
        if (5 : ℚ) < percentile (finiteVals gC3w) 1 -
            100 * (percentile (finiteVals gC3w) 99 - percentile (finiteVals gC3w) 1) then
          some (percentile (finiteVals gC3w) 1 -
            10 * (percentile (finiteVals gC3w) 99 - percentile (finiteVals gC3w) 1))
        else none :=
  ⟨by decide, C3_detector_spec.2.2 gC3w 5 (by decide)⟩

/-- C8: the detector never fails on degenerate inputs — the empty
grid, a grid of all-identical finite values, and a grid of only
non-finite values each yield "no sentinel" when none is declared. -/
theorem C8_degenerate_no_sentinel :
    detectNodata [] none = none ∧
    (∀ (n : ℕ) (v : ℚ), detectNodata (List.replicate n (RVal.fin v)) none = none) ∧
    (∀ g : List RVal, (∀ x ∈ g, x.isFinite = false) → detectNodata g none = none) := by
  refine ⟨rfl, ?_, ?_⟩
  · intro n v
    cases n with
    | zero => rfl
    | succ m =>
      show detectFromFinite (finiteVals (List.replicate (m + 1) (RVal.fin v))) = none
      rw [finiteVals_replicate, List.replicate_succ]
      have hall : ∀ x ∈ (v :: List.replicate m v), x = v := by
        intro x hx
        rcases List.mem_cons.1 hx with h | h
        · exact h
        · exact List.eq_of_mem_replicate h
      have h1 : percentile (v :: List.replicate m v) 1 = v :=
        percentile_of_all_eq (by simp) hall (by norm_num)
      have h99 : percentile (v :: List.replicate m v) 99 = v :=
        percentile_of_all_eq (by simp) hall (by norm_num)
      have hmin : (List.replicate m v).foldl min v = v :=
        foldl_min_of_all_eq (fun x hx => List.eq_of_mem_replicate hx)
      simp [detectFromFinite, h1, h99, hmin]
  · intro g h
    have hfin : finiteVals g = [] := by
      apply List.filterMap_eq_nil_iff.2
      intro a ha
      have := h a ha
      cases a <;> simp_all [RVal.isFinite, finQ]
    simp [detectNodata, hfin, detectFromFinite]

/-- C8 witness: the all-nonfinite case instantiated on
`[nan, +inf, -inf]`. -/
theorem C8_degenerate_no_sentinel_witness :
    (gC8nf.all (fun x => !x.isFinite)) = true ∧ detectNodata gC8nf none = none :=
  ⟨by decide, C8_degenerate_no_sentinel.2.2 gC8nf (by decide)⟩

/-- C7: under the `np.random.choice(n, k, replace=False)` contract
(`k` distinct indices below `n`), a valid-cell set larger than 100000
yields a histogram data set of exactly 100000 cells, each a member of
the valid set, obtained through a duplicate-free index list; a set of
at most 100000 cells is used whole; and when valid cells exist the
emitted histogram visualization carries exactly this data set. -/
theorem C7_histogram_sampling :
    ∀ choice : ℕ → ℕ → List ℕ,
      (∀ n k, k ≤ n → (choice n k).length = k ∧ (choice n k).Nodup ∧
        ∀ i ∈ choice n k, i < n) →
      (∀ vd : List RVal, 100000 < vd.length →
        (tifHistData choice vd).length = 100000 ∧
        (∀ x ∈ tifHistData choice vd, x ∈ vd) ∧
        ∃ idxs : List ℕ, idxs.Nodup ∧ idxs.length = 100000 ∧
          (∀ i ∈ idxs, i < vd.length) ∧
          tifHistData choice vd = idxs.map (fun i => vd.getD i RVal.nan)) ∧
      (∀ vd : List RVal, vd.length ≤ 100000 → tifHistData choice vd = vd) ∧
      (∀ rd : RasterData, 0 < (tifValidData rd).length →
        Viz.mk "histogram" "Vulnerability Score Distribution"
          (Fig.histF (tifHistData choice (tifValidData rd)) 50) ∈
          createTifVisualizations choice rd) := by
  intro choice hc
  refine ⟨?_, ?_, ?_⟩
  · intro vd hv
    obtain ⟨hlen, hnd, hbnd⟩ := hc vd.length 100000 (le_of_lt hv)
    have hunf : tifHistData choice vd =
        (choice vd.length 100000).map (fun i => vd.getD i RVal.nan) := by
      simp [tifHistData, hv]
    refine ⟨?_, ?_, choice vd.length 100000, hnd, hlen, hbnd, hunf⟩
    · rw [hunf, List.length_map, hlen]
    · intro x hx
      rw [hunf] at hx
      rcases List.mem_map.1 hx with ⟨i, hi, rfl⟩
      rw [List.getD_eq_getElem _ _ (hbnd i hi)]
      exact List.getElem_mem _
  · intro vd hv
    simp [tifHistData, Nat.not_lt.2 hv]
  · intro rd hvd
    have hfilter : rd.data.flatten.filter (tifStatsMask rd.metadata.nodata) =
        tifValidData rd := rfl
    simp only [createTifVisualizations, hfilter, if_pos hvd]
    simp [List.mem_append]

/-- C7 witness: the sampler taking the first `k` indices satisfies the
without-replacement contract, and on a valid-cell set of exactly
150000 cells the histogram data has exactly 100000 cells, all members
of the set. -/
theorem C7_histogram_sampling_witness :
    100000 < vdC7.length ∧ (tifHistData choiceRange vdC7).length = 100000 := by
  have hc : ∀ n k, k ≤ n → (choiceRange n k).length = k ∧ (choiceRange n k).Nodup ∧
      ∀ i ∈ choiceRange n k, i < n := by
    intro n k hk
    refine ⟨List.length_range k, List.nodup_range k, ?_⟩
    intro i hi
    exact lt_of_lt_of_le (List.mem_range.1 hi) hk
  have hlen : 100000 < vdC7.length := by norm_num [vdC7]
  exact ⟨hlen, ((C7_histogram_sampling choiceRange hc).1 vdC7 hlen).1⟩

/-- C9: a raster with zero valid cells after sentinel and safety-range
filtering produces no visualization at all — no heatmap, no statistics
chart, no histogram — and the generator returns the empty list. -/
theorem C9_zero_valid_no_viz :
    ∀ (choice : ℕ → ℕ → List ℕ) (rd : RasterData),
      tifValidData rd = [] → createTifVisualizations choice rd = [] := by
  intro choice rd h
  have hmask : ∀ v ∈ rd.data.flatten, ¬ tifStatsMask rd.metadata.nodata v = true :=
    List.filter_eq_nil_iff.1 h
  have hsample :
      (everyNth 4 ((rd.data.map (List.map (fun v =>
          if tifCleanMask rd.metadata.nodata v then v else RVal.nan))).map
        (everyNth 4))).flatten.filter RVal.isFinite = [] := by
    apply List.filter_eq_nil_iff.2
    intro x hx
    rcases List.mem_flatten.1 hx with ⟨row, hrow, hxrow⟩
    have hrow2 := mem_of_mem_everyNth hrow
    rcases List.mem_map.1 hrow2 with ⟨row0, hrow0, rfl⟩
    have hx0 := mem_of_mem_everyNth hxrow
    rcases List.mem_map.1 hrow0 with ⟨orow, horow, rfl⟩
    rcases List.mem_map.1 hx0 with ⟨v, hv, rfl⟩
    have hvflat : v ∈ rd.data.flatten := List.mem_flatten_of_mem horow hv
    by_cases hcm : tifCleanMask rd.metadata.nodata v = true
    · exact absurd (statsMask_of_cleanMask hcm) (hmask v hvflat)
    · simp [hcm, RVal.isFinite]
  have hfilter : rd.data.flatten.filter (tifStatsMask rd.metadata.nodata) =
      tifValidData rd := rfl
  simp only [createTifVisualizations, hfilter, h, hsample]
  simp

/-- C9 witness: a 1 x 1 raster whose only cell equals its declared
sentinel has no valid cells and yields no visualization. -/
theorem C9_zero_valid_no_viz_witness :
    tifValidData rdC9 = [] ∧ createTifVisualizations choiceRange rdC9 = [] :=
  ⟨by decide, C9_zero_valid_no_viz choiceRange rdC9 (by decide)⟩

/-- C10: pandas `describe()` uses the sample standard deviation
(divisor `n - 1`) while `np.std` uses the population standard
deviation (divisor `n`), so on any value list of length at least 2
with nonzero variance the tabular and raster analyzers report
different standard deviations. -/
theorem C10_std_divisor_discrepancy :
    ∀ l : List ℚ, 2 ≤ l.length → popVariance l ≠ 0 → pandasStd l ≠ npStd l := by
  intro l hlen hvar
  have hSS0 : 0 ≤ squaredDevSum l := by
    apply List.sum_nonneg
    intro x hx
    rcases List.mem_map.1 hx with ⟨y, _, rfl⟩
    positivity
  have hn : (0 : ℚ) < (l.length : ℚ) := by
    have : 0 < l.length := by omega
    exact_mod_cast this
  have hSSne : squaredDevSum l ≠ 0 := by
    intro hz
    exact hvar (by simp [popVariance, hz])
  have hSS : 0 < squaredDevSum l := lt_of_le_of_ne hSS0 (Ne.symm hSSne)
  have hn1 : (0 : ℚ) < (l.length : ℚ) - 1 := by
    have h2 : (2 : ℚ) ≤ (l.length : ℚ) := by exact_mod_cast hlen
    linarith
  have hlt : popVariance l < sampleVariance l := by
    unfold popVariance sampleVariance
    exact div_lt_div_of_pos_left hSS hn1 (by linarith)
  have h0 : (0 : ℝ) ≤ ((popVariance l : ℚ) : ℝ) := by
    have : (0 : ℚ) ≤ popVariance l := div_nonneg hSS0 hn.le
    exact_mod_cast this
  have hstd : npStd l < pandasStd l := by
    unfold npStd pandasStd
    exact Real.sqrt_lt_sqrt h0 (by exact_mod_cast hlt)
  exact ne_of_gt hstd

/-- C10 witness: on the list `[0, 1]` (sample variance `1/2`,
population variance `1/4`) the two standard deviations differ. -/
theorem C10_std_divisor_discrepancy_witness :
    2 ≤ lC10.length ∧ popVariance lC10 ≠ 0 ∧ pandasStd lC10 ≠ npStd lC10 :=
  ⟨by decide, by decide, C10_std_divisor_discrepancy lC10 (by decide) (by decide)⟩

end UDA
